import Mathlib

/-!
Shallow embedding of the quiz application in `src/quiz_app.py` (a Streamlit
vocabulary drill), together with theorems settling the specification claims.

Modelling conventions:
* Python strings are `List Char` / `String`; the Unicode predicates
  `str.isalpha` / `str.isdigit` / `str.isspace` and `str.lower` are modelled
  over the character ranges that occur in this development (ASCII plus the
  Hangul-syllable block U+AC00–U+D7A3).
* Python floats are modelled as exact rationals (`ℚ`); the similarity ratio
  `2*M/T` and the threshold `0.85 = 17/20` are far from any double-rounding
  boundary in every statement below.
* Dynamically typed Python values reaching `is_correct` are modelled by the
  inductive `PyVal` (strings, `None`, ints), with `str()` coercion `pyStrOf`.
* Streamlit's `st.session_state` is the record `AppState`; each button /
  form handler in the script becomes a state-transformer function.
-/

namespace VocabQuiz

/-! ## Python value model and string primitives -/

/-- A dynamically typed Python value that may reach `is_correct`
(`str`, `None`, or a numeric cell read from the spreadsheet). -/
inductive PyVal where
  | PyStr : String → PyVal
  | PyNone : PyVal
  | PyInt : Int → PyVal
deriving DecidableEq, Repr

/-- Python `str()` coercion: identity on strings, `"None"` for `None`,
decimal representation for ints. -/
def pyStrOf : PyVal → String
  | .PyStr s => s
  | .PyNone => "None"
  | .PyInt n => toString n

/-- Python `str.isalpha`, restricted to the character ranges used in this
development: ASCII letters and Hangul syllables (U+AC00–U+D7A3), which are
alphabetic in Unicode. -/
def pyIsAlpha (c : Char) : Bool :=
  c.isAlpha || (0xAC00 ≤ c.toNat && c.toNat ≤ 0xD7A3)

/-- Python `str.isdigit`, restricted to ASCII digits. -/
def pyIsDigit (c : Char) : Bool := c.isDigit

/-- Python `str.isspace`, restricted to ASCII whitespace
(space, tab, newline, vertical tab, form feed, carriage return). -/
def pyIsSpace (c : Char) : Bool :=
  c = ' ' || c = '\t' || c = '\n' || c.toNat = 11 || c.toNat = 12 || c = '\r'

/-- Python `str.lower`, restricted to ASCII case mapping (Hangul has no case). -/
def pyLower (s : List Char) : List Char := s.map Char.toLower

/-- Python `str.strip()`: drop leading and trailing whitespace. -/
def pyStrip (s : List Char) : List Char :=
  ((s.dropWhile pyIsSpace).reverse.dropWhile pyIsSpace).reverse

/-- Embedding of `clean_text` (quiz_app.py lines 13–14): keep only alphabetic, digit and
whitespace characters, then strip leading/trailing whitespace. Interior
whitespace is preserved. -/
def clean_text (s : List Char) : List Char :=
  pyStrip (s.filter fun c => pyIsAlpha c || pyIsDigit c || pyIsSpace c)

/-! ## difflib.SequenceMatcher (CPython, `isjunk=None`, `autojunk=True`)

`is_correct` calls `difflib.SequenceMatcher(None, user_input, answer).ratio()`.
We embed the CPython algorithm: the `b2j` index with the autojunk "popular
element" filter, the greedy `find_longest_match` dynamic programming with its
order-dependent tie-breaking, the matching-blocks recursion, and
`ratio = 2*M/T` (with `ratio = 1` when both strings are empty, as in
`_calculate_ratio`). Since `isjunk` is `None`, the `bjunk` set is empty and
the two junk-extension loops of `find_longest_match` are no-ops; only the two
non-junk extension loops are modelled. -/

/-- Ascending list of the positions of `c` in `b` (difflib's `b2j` chains). -/
def positionsOf (b : List Char) (c : Char) : List Nat :=
  (b.enum.filter fun p => p.2 = c).map fun p => p.1

/-- difflib's `b2j` lookup after the autojunk pass: when `len(b) ≥ 200`,
characters occurring more than `len(b)/100 + 1` times are dropped. -/
def b2j (b : List Char) (c : Char) : List Nat :=
  if 200 ≤ b.length && b.length / 100 + 1 < b.count c then []
  else positionsOf b c

/-- One row of `find_longest_match`'s dynamic programming: fold over the
`b2j` chain of `a[i]`, building the new `j2len` row and updating the best
block `(besti, bestj, bestsize)` exactly when `k > bestsize`. Positions
`j < blo` are skipped and positions `j ≥ bhi` contribute nothing (the chain
is ascending, so skipping them is Python's `break`). -/
def flmRow (js : List Nat) (blo bhi : Nat) (j2len : Nat → Nat) (i : Nat)
    (best : Nat × Nat × Nat) : (Nat → Nat) × (Nat × Nat × Nat) :=
  js.foldl
    (fun acc j =>
      if j < blo then acc
      else if bhi ≤ j then acc
      else
        let k := (if j = 0 then 0 else j2len (j - 1)) + 1
        let row := fun x => if x = j then k else acc.1 x
        if acc.2.2.2 < k then (row, (i + 1 - k, j + 1 - k, k))
        else (row, acc.2))
    ((fun _ => 0), best)

/-- The main loop of `find_longest_match` over `i ∈ [alo, ahi)`. -/
def flmMain (a b : List Char) (alo ahi blo bhi : Nat) : Nat × Nat × Nat :=
  ((List.range' alo (ahi - alo)).foldl
    (fun st i => flmRow (b2j b (a.getD i ' ')) blo bhi st.1 i st.2)
    ((fun _ => 0), (alo, blo, 0))).2

/-- Extend the best block leftwards while the preceding characters match
(`bjunk` is empty, so the "non-junk" guard is vacuous). The fuel argument
bounds the loop; callers pass `besti`, which the loop can never exceed. -/
def extendLeft (a b : List Char) (alo blo : Nat) :
    Nat → Nat × Nat × Nat → Nat × Nat × Nat
  | 0, best => best
  | fuel + 1, (bi, bj, bs) =>
    if alo < bi && blo < bj && (a.getD (bi - 1) ' ' = b.getD (bj - 1) ' ') then
      extendLeft a b alo blo fuel (bi - 1, bj - 1, bs + 1)
    else (bi, bj, bs)

/-- Extend the best block rightwards while the following characters match. -/
def extendRight (a b : List Char) (ahi bhi : Nat) :
    Nat → Nat × Nat × Nat → Nat × Nat × Nat
  | 0, best => best
  | fuel + 1, (bi, bj, bs) =>
    if bi + bs < ahi && bj + bs < bhi && (a.getD (bi + bs) ' ' = b.getD (bj + bs) ' ') then
      extendRight a b ahi bhi fuel (bi, bj, bs + 1)
    else (bi, bj, bs)

/-- Embedding of `find_longest_match(alo, ahi, blo, bhi)` with `isjunk = None`. -/
def findLongestMatch (a b : List Char) (alo ahi blo bhi : Nat) : Nat × Nat × Nat :=
  extendRight a b ahi bhi b.length
    (extendLeft a b alo blo a.length (flmMain a b alo ahi blo bhi))

/-- Total size `M` of the matching blocks of `get_matching_blocks`, by the
same divide-and-conquer recursion (find the longest match, recurse on the
left and right remainders). The fuel bounds the recursion depth, which is at
most `ahi - alo` since each recursive call strictly shrinks its `a`-interval;
callers pass `a.length + 1`. -/
def matchesTotal (a b : List Char) : Nat → Nat → Nat → Nat → Nat → Nat
  | 0, _, _, _, _ => 0
  | fuel + 1, alo, ahi, blo, bhi =>
    let (i, j, k) := findLongestMatch a b alo ahi blo bhi
    if k = 0 then 0
    else k + matchesTotal a b fuel alo i blo j + matchesTotal a b fuel (i + k) ahi (j + k) bhi

/-- Embedding of `SequenceMatcher(None, a, b).ratio() = 2*M/T`, and `1` when `T = 0`
(difflib's `_calculate_ratio`). Floats are modelled as exact rationals;
`mkRat (2*m) length` is the exact value of `2.0*matches/length`
(see `pyRatioL_eq_div`). -/
def pyRatioL (a b : List Char) : ℚ :=
  let m := matchesTotal a b (a.length + 1) 0 a.length 0 b.length
  let length := a.length + b.length
  if length = 0 then 1 else mkRat (2 * m) length

/-- The ratio on strings, as called by `is_correct`. -/
def pyRatio (a b : String) : ℚ := pyRatioL a.data b.data

/-! ## is_correct (quiz_app.py lines 16–26) -/

/-- The default fuzzy-match threshold `0.85` as an exact rational
(`mkRat 17 20 = 17/20 = 0.85`, see `defaultThreshold_eq_div`). -/
def defaultThreshold : ℚ := mkRat 17 20

/-- The normalization `is_correct` applies to each argument:
`clean_text(str(x).lower())`. -/
def normalizeVal (x : PyVal) : List Char := clean_text (pyLower (pyStrOf x).data)

/-- Embedding of `is_correct(user_input, answer, threshold)` (quiz_app.py lines 16–26):
normalize both arguments via `str`, `lower`, `clean_text`; exact match
returns `True` immediately; otherwise compare the SequenceMatcher ratio with
the threshold. -/
def is_correct (user_input answer : PyVal) (threshold : ℚ) : Bool :=
  let u := normalizeVal user_input
  let a := normalizeVal answer
  if u = a then true
  else decide (threshold ≤ pyRatioL u a)

/-! ## Data model: pandas DataFrame and Streamlit session state -/

/-- The part of a pandas DataFrame the app uses: the column names and the
rows, each row an association list from column name to cell value. -/
structure Frame where
  columns : List String
  rows : List (List (String × PyVal))
deriving DecidableEq, Repr

/-- Cell access `row[col]` on a DataFrame row; the app only reads columns whose
presence `load_data` has checked, so a missing column yields a default. -/
def rowLookup (row : List (String × PyVal)) (col : String) : PyVal :=
  ((row.find? fun p => p.1 = col).map fun p => p.2).getD .PyNone

/-- The Streamlit session state `st.session_state` (quiz_app.py lines 71–81 and the fields assigned by
the handlers): loaded data, current question index, score, per-item results
(`None`/`True`/`False`, modelled `Option Bool`), the widget-reset counter
`input_key`, the cached word count, and the last uploaded file name. -/
structure AppState where
  data : Option Frame
  current_index : Nat
  score : Nat
  results : List (Option Bool)
  input_key : Nat
  total_words : Nat
  last_file : Option String
deriving DecidableEq, Repr

/-- Number of item indices currently graded Correct
(`count(results[i] is True)`); the spec's intended meaning of `score`. -/
def countCorrect (st : AppState) : Nat :=
  (st.results.filter fun r => r = some true).length

/-- The fixed schema error message of `load_data` (quiz_app.py line 64). -/
def schemaErrorMsg : String := "Excel must have 'English' and 'Korean' columns."

/-- Embedding of `load_data(file)` (quiz_app.py lines 60–69). The `pd.read_excel` call is
modelled by the input already being parsed (`.ok df`) or having raised
(`.error e`). Returns the dataframe (or `none`) together with the error
message shown via `st.error` (or `none`). -/
def load_data : Except String Frame → Option Frame × Option String
  | .error e => (none, some ("Error loading file: " ++ e))
  | .ok df =>
    if ¬ df.columns.contains "English" ∨ ¬ df.columns.contains "Korean" then
      (none, some schemaErrorMsg)
    else (some df, none)

/-- The upload handler (quiz_app.py lines 94–105): when no data is loaded or
the file name changed, call `load_data`; on success replace the whole
session (data, word count, index, score, results, last file name); on
failure (`df is None`) change nothing. -/
def uploadStep (st : AppState) (fileName : String) (parsed : Except String Frame) :
    AppState :=
  if st.data = none ∨ st.last_file ≠ some fileName then
    match (load_data parsed).1 with
    | none => st
    | some df =>
      { st with
        data := some df
        total_words := df.rows.length
        current_index := 0
        score := 0
        results := List.replicate df.rows.length none
        last_file := some fileName }
  else st

/-- The `Reset Quiz` button handler (quiz_app.py lines 147–152). -/
def resetQuiz (st : AppState) : AppState :=
  { st with
    current_index := 0
    score := 0
    results := List.replicate st.total_words none
    input_key := st.input_key + 1 }

/-- A question-grid navigation button `nav_i` (quiz_app.py lines 142–145). -/
def goTo (st : AppState) (i : Nat) : AppState :=
  { st with current_index := i, input_key := st.input_key + 1 }

/-- Outcome of the `Next Question` button: either the index advanced or the
quiz-finished message was shown. -/
inductive NextResult where
  | Advanced : NextResult
  | Completed : NextResult
deriving DecidableEq, Repr

/-- The `Next Question` button handler (quiz_app.py lines 246–253): advance
(and bump `input_key`) only while `current_index < total_words - 1`; at the
last index just report completion, mutating nothing. The comparison is over
ℤ as in Python. -/
def nextQuestion (st : AppState) : NextResult × AppState :=
  if (st.current_index : ℤ) < (st.total_words : ℤ) - 1 then
    (.Advanced, { st with current_index := st.current_index + 1, input_key := st.input_key + 1 })
  else (.Completed, st)

/-! ## The submit handler (quiz_app.py lines 198–243) -/

/-- The radio label selecting Dictation mode (quiz_app.py lines 89, 170). -/
def dictationLabel : String := "Dictation (Listen -> Write)"

/-- The mode test `is_dictation = mode == "Dictation (Listen -> Write)"` (line 170). -/
def isDictationMode (mode : String) : Bool := mode = dictationLabel

/-- The answer-checking part of the submit handler (lines 212–232): overall
correctness plus the feedback messages assembled for `st.error` when wrong
(`"Spelling: <term>"` / `"Meaning: <meaning>"` in Dictation,
`"Answer: <meaning>"` in Reading). -/
def checkAnswers (isDict : Bool) (user_spelling user_meaning : PyVal)
    (english korean : String) : Bool × List String :=
  let correct_meaning := is_correct user_meaning (.PyStr korean) defaultThreshold
  if isDict then
    let correct_spelling := is_correct user_spelling (.PyStr english) defaultThreshold
    let is_right := correct_meaning && correct_spelling
    if is_right then (is_right, [])
    else
      (is_right,
        (if ¬ correct_spelling then ["Spelling: " ++ english] else []) ++
        (if ¬ correct_meaning then ["Meaning: " ++ korean] else []))
  else
    (correct_meaning, if correct_meaning then [] else ["Answer: " ++ korean])

/-- The grading part of the submit handler (lines 234–240): on a right
answer, increment `score` only when the stored result `is not True`, then
store `True`; on a wrong answer just store `False` (the score is NOT
decremented — see `C1_score_invariant`). -/
def gradeUpdate (st : AppState) (is_right : Bool) : AppState :=
  if is_right then
    { st with
      score := if st.results.getD st.current_index none ≠ some true
               then st.score + 1 else st.score
      results := st.results.set st.current_index (some true) }
  else
    { st with results := st.results.set st.current_index (some false) }

/-- The whole `if submitted:` block (lines 212–243): read the current row's
`English`/`Korean` cells (lines 158–161), check the answers, and apply the
grading update. Returns the `(is_right, messages)` feedback together with
the new session state. The block only runs when data is loaded
(line 157). -/
def submitForm (st : AppState) (mode : String) (user_spelling user_meaning : PyVal) :
    (Bool × List String) × AppState :=
  match st.data with
  | none => ((false, []), st)
  | some df =>
    let row := df.rows.getD st.current_index []
    let english := pyStrOf (rowLookup row "English")
    let korean := pyStrOf (rowLookup row "Korean")
    let res := checkAnswers (isDictationMode mode) user_spelling user_meaning english korean
    (res, gradeUpdate st res.1)

/-! ## Concrete example data (the spec's §8 example dataset) -/

/-- The radio label selecting Reading mode (quiz_app.py line 89). -/
def readingLabel : String := "Reading (Eng -> Kor)"

/-- A one-row dataset `[("apple", "사과")]`. -/
def appleFrame : Frame :=
  ⟨["English", "Korean"], [[("English", .PyStr "apple"), ("Korean", .PyStr "사과")]]⟩

/-- A fresh session on `appleFrame`, as built by the upload handler. -/
def appleSession : AppState :=
  ⟨some appleFrame, 0, 0, [none], 0, 1, some "vocabulary.xlsx"⟩

/-- The spec's example dataset `[("apple", "사과"), ("book", "책")]`. -/
def twoWordFrame : Frame :=
  ⟨["English", "Korean"],
    [[("English", .PyStr "apple"), ("Korean", .PyStr "사과")],
     [("English", .PyStr "book"), ("Korean", .PyStr "책")]]⟩

/-- A fresh session on `twoWordFrame`. -/
def twoWordSession : AppState :=
  ⟨some twoWordFrame, 0, 0, [none, none], 0, 2, none⟩

/-- Session state after submitting the correct Reading answer `"사과"` on the
fresh one-item session. -/
def afterCorrect : AppState :=
  (submitForm appleSession readingLabel .PyNone (.PyStr "사과")).2

/-- Session state after then submitting the wrong answer `"오답"` for the
same (previously Correct) item. -/
def afterCorrectThenWrong : AppState :=
  (submitForm afterCorrect readingLabel .PyNone (.PyStr "오답")).2

/-- Session state after submitting the correct answer once more. -/
def afterCorrectWrongCorrect : AppState :=
  (submitForm afterCorrectThenWrong readingLabel .PyNone (.PyStr "사과")).2

/-- A one-item session whose item is already graded Correct. -/
def alreadyCorrectSession : AppState :=
  ⟨some appleFrame, 0, 1, [some true], 2, 1, some "vocabulary.xlsx"⟩

/-- A parsed spreadsheet that lacks the `Korean` column. -/
def missingKoreanFrame : Frame :=
  ⟨["English", "Hangul"], [[("English", .PyStr "apple"), ("Hangul", .PyStr "사과")]]⟩

/-! ## General lemmas about the embedding -/

/-- The embedded ratio is the textbook fraction `2*M / (|a| + |b|)`. -/
theorem pyRatioL_eq_div (a b : List Char) :
    pyRatioL a b =
      if a.length + b.length = 0 then 1
      else (2 * (matchesTotal a b (a.length + 1) 0 a.length 0 b.length : ℚ))
             / ((a.length + b.length : ℕ) : ℚ) := by
  have h0 : pyRatioL a b =
      if a.length + b.length = 0 then 1
      else mkRat (2 * (matchesTotal a b (a.length + 1) 0 a.length 0 b.length : ℤ))
             (a.length + b.length) := rfl
  rw [h0]
  split_ifs with h
  · rfl
  · rw [Rat.mkRat_eq_div]
    push_cast
    ring

/-- The embedded default threshold is exactly `0.85`. -/
theorem defaultThreshold_eq_div : defaultThreshold = 17 / 20 := by
  unfold defaultThreshold
  rw [Rat.mkRat_eq_div]
  norm_num

/-- Characterization of `is_correct`: true exactly on normalized equality or
a ratio at or above the threshold. -/
theorem is_correct_eq_true_iff (u a : PyVal) (t : ℚ) :
    is_correct u a t = true ↔
      normalizeVal u = normalizeVal a ∨
        t ≤ pyRatioL (normalizeVal u) (normalizeVal a) := by
  have h0 : is_correct u a t =
      if normalizeVal u = normalizeVal a then true
      else decide (t ≤ pyRatioL (normalizeVal u) (normalizeVal a)) := rfl
  rw [h0]
  split_ifs with h
  · simp [h]
  · simp [h]

/-- The two Dictation feedback messages are never the same string. -/
theorem spelling_msg_ne_meaning_msg (e k : String) :
    "Spelling: " ++ e ≠ "Meaning: " ++ k := by
  intro h
  have h2 : ("Spelling: " ++ e).data.head? = ("Meaning: " ++ k).data.head? := by
    rw [h]
  rw [String.data_append, String.data_append] at h2
  have hs : ("Spelling: ".data ++ e.data).head? = some 'S' := by
    have hS : "Spelling: ".data = 'S' :: "pelling: ".data := rfl
    rw [hS]
    rfl
  have hm : ("Meaning: ".data ++ k.data).head? = some 'M' := by
    have hM : "Meaning: ".data = 'M' :: "eaning: ".data := rfl
    rw [hM]
    rfl
  rw [hs, hm] at h2
  exact absurd h2 (by decide)

/-- Reading an index of a freshly cleared results list gives `Unanswered`. -/
theorem getD_replicate_none (n i : Nat) :
    (List.replicate n (none : Option Bool)).getD i none = none := by
  induction n generalizing i with
  | zero => simp
  | succ n ih =>
    cases i with
    | zero => simp
    | succ i => simp [ih i]

/-- Reading back a just-written in-range entry of the results list. -/
theorem getD_set_self (l : List (Option Bool)) (i : Nat) (a : Option Bool)
    (h : i < l.length) : (l.set i a).getD i none = a := by
  induction l generalizing i with
  | nil => simp at h
  | cons x xs ih =>
    cases i with
    | zero => simp
    | succ i => simpa using ih i (by simpa using h)

/-- Filtering a cleared results list for Correct entries yields nothing. -/
theorem filter_replicate_none_nil (n : Nat) :
    ((List.replicate n (none : Option Bool)).filter fun r => r = some true) = [] := by
  induction n with
  | zero => rfl
  | succ n ih => simp [ih]

/-- The state component of `submitForm`: unchanged without data, otherwise
the grading update applied to the overall correctness verdict. -/
theorem submitForm_snd_eq (st : AppState) (mode : String) (sp m : PyVal) :
    (submitForm st mode sp m).2 =
      match st.data with
      | none => st
      | some _ => gradeUpdate st (submitForm st mode sp m).1.1 := by
  cases hd : st.data with
  | none =>
    unfold submitForm
    rw [hd]
  | some df =>
    unfold submitForm
    rw [hd]

/-! ## Claim theorems -/

/-- C1: the spec's invariant `score == count(grades[i] == Correct)` — in
particular "changing a previously-correct answer to incorrect decrements the
score by exactly 1" — is violated by the code: the wrong-answer branch
(line 240) stores `False` without ever decrementing `score`. On the one-item
dataset, after a correct submission the score is 1; after re-submitting a
wrong answer the grade is Incorrect and no item is Correct, yet the score is
still 1; a further correct submission pushes the score to 2 on a one-word
quiz. -/
theorem C1_score_invariant_violated :
    (afterCorrect.score = 1 ∧ countCorrect afterCorrect = 1) ∧
    (afterCorrectThenWrong.score = 1 ∧ countCorrect afterCorrectThenWrong = 0) ∧
    (afterCorrectWrongCorrect.score = 2 ∧ afterCorrectWrongCorrect.total_words = 1) := by
  decide

/-- C2 (counterexample): in Reading mode with expected meaning `"사과"`, the
submission `"사 과"` is graded Incorrect — not Correct as claimed — and its
normalization is not `"사과"`. -/
theorem C2_space_variant_cex :
    (submitForm appleSession readingLabel .PyNone (.PyStr "사 과")).1.1 = false ∧
    normalizeVal (.PyStr "사 과") ≠ "사과".data := by
  decide

/-- C2 (amended): `clean_text` preserves interior whitespace, so `"사 과"`
normalizes to `"사 과"`; its similarity ratio against `"사과"` is
`4/5 < 0.85`, so the submission is graded Incorrect, the item's grade becomes
Incorrect, and the score stays 0. -/
theorem C2_space_variant_graded_incorrect :
    normalizeVal (.PyStr "사 과") = "사 과".data ∧
    pyRatio "사 과" "사과" = 4 / 5 ∧
    (submitForm appleSession readingLabel .PyNone (.PyStr "사 과")).1.1 = false ∧
    (submitForm appleSession readingLabel .PyNone (.PyStr "사 과")).2.results = [some false] ∧
    (submitForm appleSession readingLabel .PyNone (.PyStr "사 과")).2.score = 0 := by
  refine ⟨by decide, ?_, by decide, by decide, by decide⟩
  have h : pyRatio "사 과" "사과" = mkRat 4 5 := by decide
  rw [h, Rat.mkRat_eq_div]
  norm_num

/-- C3 (counterexample): the similarity ratio used for fuzzy grading is not
symmetric: `ratio("ab", "bacb") ≠ ratio("bacb", "ab")`. -/
theorem C3_ratio_symmetry_cex :
    pyRatio "ab" "bacb" ≠ pyRatio "bacb" "ab" := by
  decide

/-- C3 (amended): the ratio is order-dependent, because the greedy
longest-match tie-breaking of `find_longest_match` depends on which string is
first: here the two orders give `2/3` and `1/3`. -/
theorem C3_ratio_order_dependent :
    pyRatio "ab" "bacb" = 2 / 3 ∧ pyRatio "bacb" "ab" = 1 / 3 := by
  constructor
  · have h : pyRatio "ab" "bacb" = mkRat 2 3 := by decide
    rw [h, Rat.mkRat_eq_div]
    norm_num
  · have h : pyRatio "bacb" "ab" = mkRat 1 3 := by decide
    rw [h, Rat.mkRat_eq_div]
    norm_num

/-- C4: `is_correct` on strings returns true iff the two strings are equal
after normalization (lower-casing, dropping characters that are not letters,
digits or whitespace, trimming ends) or the matching-blocks ratio of the
normalizations is at least the threshold; in particular it is reflexive. -/
theorem C4_is_correct_characterization :
    (∀ (s e : String) (t : ℚ),
      is_correct (.PyStr s) (.PyStr e) t = true ↔
        clean_text (pyLower s.data) = clean_text (pyLower e.data) ∨
          t ≤ pyRatioL (clean_text (pyLower s.data)) (clean_text (pyLower e.data)))
    ∧ ∀ s : String, is_correct (.PyStr s) (.PyStr s) defaultThreshold = true := by
  constructor
  · intro s e t
    exact is_correct_eq_true_iff (.PyStr s) (.PyStr e) t
  · intro s
    exact (is_correct_eq_true_iff _ _ _).mpr (Or.inl rfl)

/-- C10: grading is total over arbitrary Python values: `is_correct` coerces
both arguments with `str()` before normalizing, so any `PyVal` pair grades
exactly like the pair of their `str()` images and always yields a boolean;
concretely, `None` and numeric spreadsheet cells are graded against their
string forms. -/
theorem C10_grading_total_over_pyval :
    (∀ (u a : PyVal) (t : ℚ),
      is_correct u a t = is_correct (.PyStr (pyStrOf u)) (.PyStr (pyStrOf a)) t)
    ∧ is_correct .PyNone (.PyStr "none") defaultThreshold = true
    ∧ is_correct (.PyInt 12) (.PyStr "12") defaultThreshold = true := by
  refine ⟨fun u a t => rfl, by decide, by decide⟩

/-- C5: in Dictation mode a submission is Correct overall iff both the
spelling field matches the term and the meaning field matches the meaning
(each via `is_correct`), and the feedback messages contain the
`Spelling: <term>` entry exactly when the spelling failed and the
`Meaning: <meaning>` entry exactly when the meaning failed. -/
theorem C5_dictation_grading (sp m : PyVal) (eng kor : String) :
    (checkAnswers (isDictationMode dictationLabel) sp m eng kor).1
        = (is_correct m (.PyStr kor) defaultThreshold
            && is_correct sp (.PyStr eng) defaultThreshold)
    ∧ (("Spelling: " ++ eng) ∈ (checkAnswers (isDictationMode dictationLabel) sp m eng kor).2
        ↔ is_correct sp (.PyStr eng) defaultThreshold = false)
    ∧ (("Meaning: " ++ kor) ∈ (checkAnswers (isDictationMode dictationLabel) sp m eng kor).2
        ↔ is_correct m (.PyStr kor) defaultThreshold = false) := by
  have hmode : isDictationMode dictationLabel = true := rfl
  rw [hmode]
  cases hsp : is_correct sp (.PyStr eng) defaultThreshold <;>
    cases hm : is_correct m (.PyStr kor) defaultThreshold <;>
      simp [checkAnswers, hsp, hm, spelling_msg_ne_meaning_msg eng kor,
        Ne.symm (spelling_msg_ne_meaning_msg eng kor)]

/-- C6: at the last valid index, `Next Question` reports completion and
leaves the whole session state unchanged, and doing it again gives the same
completed answer; strictly below the last index it advances the current
index by one and bumps the reset epoch. -/
theorem C6_next_question (st : AppState) :
    (0 < st.total_words → st.current_index = st.total_words - 1 →
      nextQuestion st = (.Completed, st) ∧
      nextQuestion (nextQuestion st).2 = (.Completed, st))
    ∧ (st.current_index + 1 < st.total_words →
      nextQuestion st =
        (.Advanced,
          { st with current_index := st.current_index + 1,
                    input_key := st.input_key + 1 })) := by
  constructor
  · intro h1 h2
    have hc : ¬ ((st.current_index : ℤ) < (st.total_words : ℤ) - 1) := by
      omega
    have hn : nextQuestion st = (.Completed, st) := by
      unfold nextQuestion
      rw [if_neg hc]
    rw [hn]
    exact ⟨rfl, hn⟩
  · intro h
    have hc : (st.current_index : ℤ) < (st.total_words : ℤ) - 1 := by
      omega
    unfold nextQuestion
    rw [if_pos hc]

/-- Witness for C6 at concrete sessions: the one-item session sits at its
last index; the two-item session at index 0 advances. -/
theorem C6_next_question_witness :
    (nextQuestion appleSession = (.Completed, appleSession) ∧
      nextQuestion (nextQuestion appleSession).2 = (.Completed, appleSession)) ∧
    nextQuestion twoWordSession =
      (.Advanced, { twoWordSession with current_index := 1, input_key := 1 }) :=
  ⟨(C6_next_question appleSession).1 (by decide) (by decide),
   (C6_next_question twoWordSession).2 (by decide)⟩

/-- C7: resetting sets the index and score to zero, clears every grade back
to Unanswered, bumps the reset epoch, and leaves the loaded dataset and word
count untouched, from any prior state. -/
theorem C7_reset_quiz (st : AppState) :
    (resetQuiz st).current_index = 0 ∧
    (resetQuiz st).score = 0 ∧
    (resetQuiz st).results = List.replicate st.total_words none ∧
    (∀ i : Nat, (resetQuiz st).results.getD i none = none) ∧
    (resetQuiz st).input_key = st.input_key + 1 ∧
    (resetQuiz st).data = st.data ∧
    (resetQuiz st).total_words = st.total_words ∧
    countCorrect (resetQuiz st) = 0 := by
  refine ⟨rfl, rfl, rfl, fun i => getD_replicate_none _ i, rfl, rfl, rfl, ?_⟩
  simp [countCorrect, resetQuiz, filter_replicate_none_nil]

/-- C8: loading fails with the schema error — whose text names both required
columns, hence in particular every missing one — exactly when `English` or
`Korean` is absent; succeeds returning the parsed rows unchanged (possibly
zero of them) when both are present; reports parse failures; and any failed
load leaves the previous session state untouched. -/
theorem C8_load_data (f : Frame) (st : AppState) (name : String)
    (input : Except String Frame) :
    (¬ f.columns.contains "English" ∨ ¬ f.columns.contains "Korean" →
      load_data (.ok f) = (none, some schemaErrorMsg) ∧
      "English".data <:+: schemaErrorMsg.data ∧
      "Korean".data <:+: schemaErrorMsg.data)
    ∧ (f.columns.contains "English" → f.columns.contains "Korean" →
      load_data (.ok f) = (some f, none))
    ∧ (∀ e : String, load_data (.error e) = (none, some ("Error loading file: " ++ e)))
    ∧ ((load_data input).1 = none → uploadStep st name input = st) := by
  have h0 : load_data (.ok f) =
      if ¬ f.columns.contains "English" ∨ ¬ f.columns.contains "Korean"
      then (none, some schemaErrorMsg) else (some f, none) := rfl
  refine ⟨?_, ?_, fun e => rfl, ?_⟩
  · intro h
    refine ⟨?_, by decide, by decide⟩
    rw [h0, if_pos h]
  · intro h1 h2
    have hc : ¬ (¬ f.columns.contains "English" = true
        ∨ ¬ f.columns.contains "Korean" = true) := by
      rw [h1, h2]
      simp
    rw [h0, if_neg hc]
  · intro h
    unfold uploadStep
    split_ifs with hcond
    · rw [h]
    · rfl

/-- Witness for C8: a frame missing the `Korean` column fails with the
schema error and leaves the session unchanged; the complete frame loads; a
parse failure reports its cause. -/
theorem C8_load_data_witness :
    (load_data (.ok missingKoreanFrame) = (none, some schemaErrorMsg) ∧
      "English".data <:+: schemaErrorMsg.data ∧
      "Korean".data <:+: schemaErrorMsg.data) ∧
    load_data (.ok appleFrame) = (some appleFrame, none) ∧
    load_data (.error "bad file") = (none, some ("Error loading file: " ++ "bad file")) ∧
    uploadStep appleSession "other.xlsx" (.ok missingKoreanFrame) = appleSession :=
  ⟨(C8_load_data missingKoreanFrame appleSession "other.xlsx"
      (.ok missingKoreanFrame)).1 (by decide),
   (C8_load_data appleFrame appleSession "other.xlsx"
      (.ok missingKoreanFrame)).2.1 (by decide) (by decide),
   (C8_load_data appleFrame appleSession "x" (.error "bad file")).2.2.1 "bad file",
   (C8_load_data appleFrame appleSession "other.xlsx"
      (.ok missingKoreanFrame)).2.2.2 (by decide)⟩

/-- C9: submitting an answer that grades Correct for an item whose stored
grade is already Correct leaves the score unchanged, and the grade stays
Correct. -/
theorem C9_resubmit_correct_noop (st : AppState) (mode : String) (sp m : PyVal)
    (hidx : st.current_index < st.results.length)
    (hprev : st.results.getD st.current_index none = some true)
    (hright : (submitForm st mode sp m).1.1 = true) :
    (submitForm st mode sp m).2.score = st.score ∧
    (submitForm st mode sp m).2.results.getD st.current_index none = some true := by
  cases hd : st.data with
  | none =>
    have hfalse : (submitForm st mode sp m).1.1 = false := by
      unfold submitForm
      rw [hd]
    rw [hfalse] at hright
    exact absurd hright (by decide)
  | some df =>
    have h2 : (submitForm st mode sp m).2 =
        gradeUpdate st (submitForm st mode sp m).1.1 := by
      have h3 := submitForm_snd_eq st mode sp m
      rw [hd] at h3
      exact h3
    rw [h2, hright]
    unfold gradeUpdate
    rw [if_pos rfl]
    constructor
    · exact if_neg fun hne => hne hprev
    · exact getD_set_self st.results _ _ hidx

/-- Witness for C9: re-submitting the correct Reading answer on the
already-correct one-item session keeps the score at 1 and the grade
Correct. -/
theorem C9_resubmit_correct_noop_witness :
    (submitForm alreadyCorrectSession readingLabel .PyNone (.PyStr "사과")).2.score
        = alreadyCorrectSession.score ∧
    (submitForm alreadyCorrectSession readingLabel .PyNone
        (.PyStr "사과")).2.results.getD alreadyCorrectSession.current_index none
      = some true :=
  C9_resubmit_correct_noop alreadyCorrectSession readingLabel .PyNone (.PyStr "사과")
    (by decide) (by decide) (by decide)

end VocabQuiz
